import Mathlib

/-!
Shallow embedding of the Pothos RadioGroup widget (src/RadioGroup.cpp).

The widget state is the member `_radioToOption`, a vector of
(QRadioButton, Pothos::Object) pairs; a radio button is modelled by its
display text and its checked flag.  Pothos::Object is the host framework
type-erased value container; it is modelled as an inductive covering the
value shapes the widget manipulates (null object, string, integer, object
vector), with structural equality standing for Object::equals and with
canConvert/convert for the two conversions the widget performs
(to ObjectVector and to QString).

Qt queued slot invocations (QMetaObject::invokeMethod with
Qt::QueuedConnection) are modelled by running the target slot directly:
setOptions performs its validation loop and then runs the queued
__setOptions, which rebuilds the buttons and runs the queued __setValue
with the old value.
-/

namespace RadioGroupModel

/-- Pothos::Object: the type-erased value container of the host framework.
`null` is the empty `Pothos::Object()`. -/
inductive Obj where
  | null : Obj
  | str : String → Obj
  | intVal : Int → Obj
  | vec : List Obj → Obj

mutual

/-- Pothos Object equality (`Object::equals`): structural comparison. -/
def Obj.beq : Obj → Obj → Bool
  | .null, .null => true
  | .str a, .str b => a == b
  | .intVal a, .intVal b => a == b
  | .vec a, .vec b => Obj.beqList a b
  | _, _ => false

/-- Elementwise equality of object vectors. -/
def Obj.beqList : List Obj → List Obj → Bool
  | [], [] => true
  | x :: xs, y :: ys => Obj.beq x y && Obj.beqList xs ys
  | _, _ => false

end

mutual

/-- `Obj.beq` decides propositional equality. -/
def Obj.beq_iff : ∀ a b : Obj, Obj.beq a b = true ↔ a = b
  | .null, .null => by simp [Obj.beq]
  | .null, .str _ => by simp [Obj.beq]
  | .null, .intVal _ => by simp [Obj.beq]
  | .null, .vec _ => by simp [Obj.beq]
  | .str _, .null => by simp [Obj.beq]
  | .str _, .str _ => by simp [Obj.beq]
  | .str _, .intVal _ => by simp [Obj.beq]
  | .str _, .vec _ => by simp [Obj.beq]
  | .intVal _, .null => by simp [Obj.beq]
  | .intVal _, .str _ => by simp [Obj.beq]
  | .intVal _, .intVal _ => by simp [Obj.beq]
  | .intVal _, .vec _ => by simp [Obj.beq]
  | .vec _, .null => by simp [Obj.beq]
  | .vec _, .str _ => by simp [Obj.beq]
  | .vec _, .intVal _ => by simp [Obj.beq]
  | .vec a, .vec b => by simp [Obj.beq, Obj.beqList_iff a b]

/-- `Obj.beqList` decides propositional equality of lists. -/
def Obj.beqList_iff : ∀ a b : List Obj, Obj.beqList a b = true ↔ a = b
  | [], [] => by simp [Obj.beqList]
  | [], _ :: _ => by simp [Obj.beqList]
  | _ :: _, [] => by simp [Obj.beqList]
  | x :: xs, y :: ys => by
      simp [Obj.beqList, Obj.beq_iff x y, Obj.beqList_iff xs ys]

end

instance : DecidableEq Obj := fun a b => decidable_of_iff _ (Obj.beq_iff a b)

/-- `Object::equals`, as called at RadioGroup.cpp line 177. -/
def Obj.equals (a b : Obj) : Bool := Obj.beq a b

theorem Obj.equals_iff (a b : Obj) : Obj.equals a b = true ↔ a = b :=
  Obj.beq_iff a b

theorem Obj.equals_self (a : Obj) : Obj.equals a a = true :=
  (Obj.equals_iff a a).mpr rfl

/-- `option.canConvert(typeid(Pothos::ObjectVector))`: only an object
vector converts to an ObjectVector. -/
def Obj.canConvertVec : Obj → Bool
  | .vec _ => true
  | _ => false

/-- `option.convert<Pothos::ObjectVector>()` (defined on convertible
objects; elsewhere the model returns the empty vector). -/
def Obj.convertVec : Obj → List Obj
  | .vec v => v
  | _ => []

/-- `optPair.at(0).canConvert(typeid(QString))`: only a string object
converts to a QString. -/
def Obj.canConvertQString : Obj → Bool
  | .str _ => true
  | _ => false

/-- `optPair.at(0).convert<QString>()`. -/
def Obj.convertQString : Obj → String
  | .str _1 => _1
  | _ => ""

/-- A QRadioButton, reduced to the two attributes the block reads and
writes: its label text and its checked flag. -/
structure RadioButton where
  text : String
  checked : Bool
deriving DecidableEq

/-- The widget state: the `_radioToOption` member, a vector of
(radio button, option value) pairs kept in option-list order. -/
structure RadioGroup where
  radioToOption : List (RadioButton × Obj)
deriving DecidableEq

/-- Default pair used to read `_radioToOption[index]` through `getD`
(every access in the theorems is guarded by an index bound). -/
def defaultPair : RadioButton × Obj := (⟨"", false⟩, Obj.null)

/-- The loop body of `RadioGroup::value` (lines 100-107): return the
option value of the first checked button, else the empty Object. -/
def valueGo : List (RadioButton × Obj) → Obj
  | [] => Obj.null
  | p :: rest => if p.1.checked then p.2 else valueGo rest

/-- `RadioGroup::value` (lines 100-107). -/
def RadioGroup.value (st : RadioGroup) : Obj := valueGo st.radioToOption

/-- The loop body of `RadioGroup::__setValue` (lines 173-179) read as
plain per-button `setChecked(pair.second.equals(value))` writes, without
the auto-exclusive interaction between sibling radio buttons.  This is
an accurate account only where every `setChecked` call is a no-op or
acts on freshly built, all-unchecked buttons — the `__setOptions`
rebuild path (see `setOptionsSlot`); for the general slot semantics with
auto-exclusivity see `RadioGroup.setValueQt`. -/
def RadioGroup.setValueSlot (st : RadioGroup) (v : Obj) : RadioGroup :=
  ⟨st.radioToOption.map (fun p => (⟨p.1.text, Obj.equals p.2 v⟩, p.2))⟩

/-- One iteration of the validation loop of `RadioGroup::setOptions`
(lines 117-123): the thrown DataFormatException message, or none. -/
def validateEntry (option : Obj) : Option String :=
  if ¬ option.canConvertVec then some "entry is not ObjectVector"
  else
    let optPair := option.convertVec
    if optPair.length ≠ 2 then some "entry must be ObjectVector of size == 2"
    else if ¬ (optPair.getD 0 Obj.null).canConvertQString then
      some "entry[0] must be a string"
    else Option.none

/-- The whole validation loop of `RadioGroup::setOptions`: the first
exception thrown, or none when every entry passes. -/
def validateOptions : List Obj → Option String
  | [] => Option.none
  | option :: rest =>
    match validateEntry option with
    | some e => some e
    | Option.none => validateOptions rest

/-- `optPair.at(0).convert<QString>()` for an options entry (line 162). -/
def optionLabel (option : Obj) : String :=
  (option.convertVec.getD 0 Obj.null).convertQString

/-- `optPair.at(1)` for an options entry (line 163). -/
def optionValue (option : Obj) : Obj :=
  option.convertVec.getD 1 Obj.null

/-- `RadioGroup::__setOptions` (lines 154-171) together with the queued
`__setValue` it triggers through `setValue(oldValue)`: remember the old
value, clear the buttons, build one unchecked button per entry, then
re-apply the old value. -/
def RadioGroup.setOptionsSlot (st : RadioGroup) (options : List Obj) : RadioGroup :=
  let oldValue := st.value
  let built : RadioGroup :=
    ⟨options.map (fun o => (⟨optionLabel o, false⟩, optionValue o))⟩
  built.setValueSlot oldValue

/-- `RadioGroup::setOptions` (lines 114-125) run to completion: the
validation loop may throw (second component, leaving the state as it
was), otherwise the queued `__setOptions` runs. -/
def RadioGroup.setOptions (st : RadioGroup) (options : List Obj) :
    RadioGroup × Option String :=
  match validateOptions options with
  | some e => (st, some e)
  | Option.none => (st.setOptionsSlot options, Option.none)

/-- QVariant as the widget uses it: `QVariant()` (invalid) or an int. -/
inductive QVariant where
  | invalid : QVariant
  | intVal : Int → QVariant
deriving DecidableEq

/-- `QVariant::toUInt`: an invalid variant yields 0, an int converts to
unsigned with the usual modular wrap. -/
def QVariant.toUInt : QVariant → Nat
  | .invalid => 0
  | .intVal n => (n % (2 ^ 32)).toNat

/-- The loop of `RadioGroup::saveState` (lines 129-136), carrying the
running index `i`. -/
def saveStateGo : List (RadioButton × Obj) → Nat → QVariant
  | [], _ => QVariant.invalid
  | p :: rest, i => if p.1.checked then QVariant.intVal i else saveStateGo rest (i + 1)

/-- `RadioGroup::saveState` (lines 129-136): index of the first checked
button, else an invalid QVariant. -/
def RadioGroup.saveState (st : RadioGroup) : QVariant :=
  saveStateGo st.radioToOption 0

/-- Sets the checked flag of the button at index j, leaving every other
entry unchanged. -/
def setFlagGo : List (RadioButton × Obj) → Nat → Bool → List (RadioButton × Obj)
  | [], _, _ => []
  | p :: rest, 0, b => ((⟨p.1.text, b⟩ : RadioButton), p.2) :: rest
  | p :: rest, Nat.succ k, b => p :: setFlagGo rest k b

/-- Whether some button of the list is checked. -/
def anyChecked : List (RadioButton × Obj) → Bool
  | [] => false
  | p :: rest => p.1.checked || anyChecked rest

/-- Whether some button other than the one at index k is checked. -/
def anyCheckedExcept : List (RadioButton × Obj) → Nat → Bool
  | [], _ => false
  | _ :: rest, 0 => anyChecked rest
  | p :: rest, Nat.succ k => p.1.checked || anyCheckedExcept rest k

/-- Unchecks the first checked button of the list. -/
def uncheckFirstChecked : List (RadioButton × Obj) → List (RadioButton × Obj)
  | [] => []
  | p :: rest =>
    if p.1.checked then ((⟨p.1.text, false⟩ : RadioButton), p.2) :: rest
    else p :: uncheckFirstChecked rest

/-- Unchecks the first checked button whose index differs from k. -/
def uncheckFirstOther : List (RadioButton × Obj) → Nat → List (RadioButton × Obj)
  | [], _ => []
  | p :: rest, 0 => p :: uncheckFirstChecked rest
  | p :: rest, Nat.succ k =>
    if p.1.checked then ((⟨p.1.text, false⟩ : RadioButton), p.2) :: rest
    else p :: uncheckFirstOther rest k

/-- Modelled from the spec: `QAbstractButton::setChecked` on the
auto-exclusive QRadioButton siblings created at line 164 (the spec says
"exactly one radio button may be checked at a time, or none").  A call
that does not change the flag returns early.  Checking a button also
unchecks the first checked sibling.  Unchecking the sole checked button
of a group of two or more buttons is refused; in a single-button group
it goes through. -/
def qtSetChecked (l : List (RadioButton × Obj)) (j : Nat) (b : Bool) :
    List (RadioButton × Obj) :=
  if j < l.length then
    if (l.getD j defaultPair).1.checked = b then l
    else if b then uncheckFirstOther (setFlagGo l j true) j
    else if l.length = 1 then setFlagGo l j false
    else if anyCheckedExcept l j then setFlagGo l j false
    else l
  else l

/-- The loop of `RadioGroup::__setValue` (lines 173-179) with the
auto-exclusive `setChecked` semantics: the buttons are visited in list
order, each receiving `setChecked(pair.second.equals(value))`. -/
def setValueQtSteps (v : Obj) :
    Nat → Nat → List (RadioButton × Obj) → List (RadioButton × Obj)
  | 0, _, l => l
  | Nat.succ fuel, k, l =>
      setValueQtSteps v fuel (k + 1)
        (qtSetChecked l k (Obj.equals ((l.getD k defaultPair).2) v))

/-- `RadioGroup::__setValue` (lines 173-179) with the auto-exclusive Qt
button semantics. -/
def RadioGroup.setValueQt (st : RadioGroup) (v : Obj) : RadioGroup :=
  ⟨setValueQtSteps v st.radioToOption.length 0 st.radioToOption⟩

/-- `RadioGroup::restoreState` (lines 138-143); the in-range branch runs
the `__setValue` slot with the auto-exclusive button semantics. -/
def RadioGroup.restoreState (st : RadioGroup) (state : QVariant) : RadioGroup :=
  let index := state.toUInt
  if index ≥ st.radioToOption.length then st
  else st.setValueQt (st.radioToOption.getD index defaultPair).2

/-- `RadioGroup::handleRadioChanged` (lines 181-185): the signals it
emits, as (name, payload) pairs. -/
def RadioGroup.handleRadioChanged (st : RadioGroup) (toggled : Bool) :
    List (String × Obj) :=
  if ¬ toggled then [] else [("valueChanged", st.value)]

/-- Unchecks every button (the Qt-side effect of exclusivity). -/
def uncheckAll : List (RadioButton × Obj) → List (RadioButton × Obj)
  | [] => []
  | p :: rest => (⟨p.1.text, false⟩, p.2) :: uncheckAll rest

/-- Checks exactly the button at index `i`, unchecking all others. -/
def checkOnlyGo : List (RadioButton × Obj) → Nat → List (RadioButton × Obj)
  | [], _ => []
  | p :: rest, 0 => (⟨p.1.text, true⟩, p.2) :: uncheckAll rest
  | p :: rest, Nat.succ k => (⟨p.1.text, false⟩, p.2) :: checkOnlyGo rest k

/-- Modelled from the spec: a user click on radio button `i`.  The radio
buttons are mutually exclusive, so the click leaves exactly button `i`
checked; the GUI toolkit delivers toggled(false) for the previously
checked button and toggled(true) for button `i`, each handled by
`handleRadioChanged` (connected at line 165).  Returns the new state and
the concatenated signal emissions. -/
def RadioGroup.userSelect (st : RadioGroup) (i : Nat) :
    RadioGroup × List (String × Obj) :=
  let st2 : RadioGroup := ⟨checkOnlyGo st.radioToOption i⟩
  (st2, st2.handleRadioChanged false ++ st2.handleRadioChanged true)

/-- Every entry of the options list is a well-formed 2-element
[label, value] pair with a text-convertible label (the shape the spec
requires of options). -/
def entryWellFormed (option : Obj) : Bool :=
  option.canConvertVec && (option.convertVec.length == 2)
    && (option.convertVec.getD 0 Obj.null).canConvertQString

/-- Index `i` is the first checked button of the pair list, scanning in
list order. -/
def firstCheckedAt (l : List (RadioButton × Obj)) (i : Nat) : Prop :=
  i < l.length ∧ (l.getD i defaultPair).1.checked = true ∧
    ∀ j, j < i → (l.getD j defaultPair).1.checked = false

instance (l : List (RadioButton × Obj)) (i : Nat) :
    Decidable (firstCheckedAt l i) := by
  unfold firstCheckedAt; infer_instance

/-- Exactly the button at index c is checked (the shape every reachable
state of the auto-exclusive group has, besides all-unchecked). -/
def checkedExactlyAt (l : List (RadioButton × Obj)) (c : Nat) : Prop :=
  c < l.length ∧ ∀ j, j < l.length →
    ((l.getD j defaultPair).1.checked = decide (j = c))

instance (l : List (RadioButton × Obj)) (c : Nat) :
    Decidable (checkedExactlyAt l c) := by
  unfold checkedExactlyAt; infer_instance

/-- Index m is the last option of the list whose value equals v. -/
def lastMatchAt (l : List (RadioButton × Obj)) (v : Obj) (m : Nat) : Prop :=
  m < l.length ∧ (l.getD m defaultPair).2 = v ∧
    ∀ j, j < l.length → m < j → (l.getD j defaultPair).2 ≠ v

instance (l : List (RadioButton × Obj)) (v : Obj) (m : Nat) :
    Decidable (lastMatchAt l v m) := by
  unfold lastMatchAt; infer_instance

/-- Invariant of the `__setValue` loop after the buttons with index
below k have been visited, for an initial state l₀ that is all-unchecked
or checked exactly at one index: either no visited option value equalled
v and the state is untouched, or the state is checked exactly at the
last visited match. -/
def InvState (l₀ : List (RadioButton × Obj)) (v : Obj) (k : Nat)
    (l : List (RadioButton × Obj)) : Prop :=
  (l = l₀ ∧ ∀ j, j < l₀.length → j < k → (l₀.getD j defaultPair).2 ≠ v)
  ∨ ∃ m, m < l₀.length ∧ m < k ∧ (l₀.getD m defaultPair).2 = v ∧
      (∀ j, j < l₀.length → m < j → j < k → (l₀.getD j defaultPair).2 ≠ v) ∧
      l = checkOnlyGo l₀ m

theorem valueGo_eq_find (l : List (RadioButton × Obj)) :
    valueGo l = match l.find? (fun p => p.1.checked) with
      | some p => p.2
      | Option.none => Obj.null := by
  induction l with
  | nil => rfl
  | cons q rest ih =>
    cases h : q.1.checked with
    | true => simp [valueGo, List.find?, h]
    | false => simp [valueGo, List.find?, h, ih]

theorem valueGo_of_noneChecked (l : List (RadioButton × Obj))
    (h : ∀ p ∈ l, p.1.checked = false) : valueGo l = Obj.null := by
  induction l with
  | nil => rfl
  | cons p rest ih =>
    have hp := h p (List.mem_cons_self p rest)
    simp [valueGo, hp, ih (fun q hq => h q (List.mem_cons_of_mem p hq))]

theorem valueGo_of_firstChecked (l : List (RadioButton × Obj)) (i : Nat)
    (h : firstCheckedAt l i) : valueGo l = (l.getD i defaultPair).2 := by
  induction l generalizing i with
  | nil => exact absurd h.1 (by simp)
  | cons p rest ih =>
    obtain ⟨hlen, hchk, hprev⟩ := h
    by_cases hp : p.1.checked = true
    · cases i with
      | zero => simp [valueGo, hp, List.getD_cons_zero]
      | succ k =>
        have h0 := hprev 0 (Nat.succ_pos k)
        rw [List.getD_cons_zero] at h0
        rw [hp] at h0; exact absurd h0 (by simp)
    · cases i with
      | zero =>
        rw [List.getD_cons_zero] at hchk; exact absurd hchk hp
      | succ k =>
        rw [List.getD_cons_succ] at hchk
        have hfc : firstCheckedAt rest k := by
          refine ⟨?_, hchk, ?_⟩
          · simpa using Nat.lt_of_succ_lt_succ hlen
          · intro j hj
            have := hprev (j + 1) (Nat.succ_lt_succ hj)
            rwa [List.getD_cons_succ] at this
        simp only [Bool.not_eq_true] at hp
        simp [valueGo, hp, List.getD_cons_succ, ih k hfc]

theorem saveStateGo_of_noneChecked (l : List (RadioButton × Obj)) (k : Nat)
    (h : ∀ p ∈ l, p.1.checked = false) : saveStateGo l k = QVariant.invalid := by
  induction l generalizing k with
  | nil => rfl
  | cons p rest ih =>
    have hp := h p (List.mem_cons_self p rest)
    simp [saveStateGo, hp, ih (k + 1) (fun q hq => h q (List.mem_cons_of_mem p hq))]

theorem saveStateGo_of_firstChecked (l : List (RadioButton × Obj)) (i k : Nat)
    (h : firstCheckedAt l i) : saveStateGo l k = QVariant.intVal (k + i) := by
  induction l generalizing i k with
  | nil => exact absurd h.1 (by simp)
  | cons p rest ih =>
    obtain ⟨hlen, hchk, hprev⟩ := h
    by_cases hp : p.1.checked = true
    · cases i with
      | zero => simp [saveStateGo, hp]
      | succ j =>
        have h0 := hprev 0 (Nat.succ_pos j)
        rw [List.getD_cons_zero] at h0
        rw [hp] at h0; exact absurd h0 (by simp)
    · cases i with
      | zero =>
        rw [List.getD_cons_zero] at hchk; exact absurd hchk hp
      | succ j =>
        rw [List.getD_cons_succ] at hchk
        have hfc : firstCheckedAt rest j := by
          refine ⟨?_, hchk, ?_⟩
          · simpa using Nat.lt_of_succ_lt_succ hlen
          · intro m hm
            have := hprev (m + 1) (Nat.succ_lt_succ hm)
            rwa [List.getD_cons_succ] at this
        simp only [Bool.not_eq_true] at hp
        have := ih j (k + 1) hfc
        simp only [saveStateGo, hp, if_neg (by simp : ¬ false = true), this,
          QVariant.intVal.injEq]
        omega

theorem setValueMap_getD (l : List (RadioButton × Obj)) (v : Obj) (j : Nat)
    (h : j < l.length) :
    (l.map (fun p => ((⟨p.1.text, Obj.equals p.2 v⟩ : RadioButton), p.2))).getD j defaultPair
      = (⟨(l.getD j defaultPair).1.text, Obj.equals (l.getD j defaultPair).2 v⟩,
          (l.getD j defaultPair).2) := by
  induction l generalizing j with
  | nil => exact absurd h (by simp)
  | cons p rest ih =>
    cases j with
    | zero => simp [List.getD_cons_zero]
    | succ k =>
      simp only [List.map_cons, List.getD_cons_succ]
      exact ih k (by simpa using Nat.lt_of_succ_lt_succ h)

theorem valueGo_setValueMap (l : List (RadioButton × Obj)) (v : Obj) :
    valueGo (l.map (fun p => ((⟨p.1.text, Obj.equals p.2 v⟩ : RadioButton), p.2)))
      = if v ∈ l.map (fun p => p.2) then v else Obj.null := by
  induction l with
  | nil => simp [valueGo]
  | cons p rest ih =>
    by_cases h : p.2 = v
    · subst h
      simp [valueGo, Obj.equals_self]
    · have hb : Obj.equals p.2 v = false := by
        rw [← Bool.not_eq_true, Obj.equals_iff]; exact h
      have hv : ¬ v = p.2 := fun hv => h hv.symm
      by_cases hm : v ∈ List.map (fun p => p.2) rest
      · simp [valueGo, hb, ih, hm, List.mem_cons, hv]
      · simp [valueGo, hb, ih, hm, List.mem_cons, hv]

theorem checked_setValueMap (l : List (RadioButton × Obj)) (v : Obj)
    (hv : v ∉ l.map (fun p => p.2)) :
    ∀ q ∈ l.map (fun p => ((⟨p.1.text, Obj.equals p.2 v⟩ : RadioButton), p.2)),
      q.1.checked = false := by
  intro q hq
  obtain ⟨p, hp, rfl⟩ := List.mem_map.mp hq
  by_cases h : p.2 = v
  · exact absurd (h ▸ List.mem_map_of_mem (fun p => p.2) hp) hv
  · rw [← Bool.not_eq_true]
    simpa [Obj.equals_iff] using h

theorem getD_snd_mem_map (l : List (RadioButton × Obj)) (i : Nat)
    (h : i < l.length) :
    (l.getD i defaultPair).2 ∈ l.map (fun p => p.2) := by
  rw [List.getD_eq_getElem _ _ h]
  exact List.mem_map_of_mem (fun p => p.2) (List.getElem_mem h)

theorem valueGo_uncheckAll (l : List (RadioButton × Obj)) :
    valueGo (uncheckAll l) = Obj.null := by
  induction l with
  | nil => rfl
  | cons p rest ih => simp [uncheckAll, valueGo, ih]

theorem valueGo_checkOnly (l : List (RadioButton × Obj)) (i : Nat)
    (h : i < l.length) :
    valueGo (checkOnlyGo l i) = (l.getD i defaultPair).2 := by
  induction l generalizing i with
  | nil => exact absurd h (by simp)
  | cons p rest ih =>
    cases i with
    | zero => simp [checkOnlyGo, valueGo, List.getD_cons_zero]
    | succ k =>
      simp only [checkOnlyGo, valueGo, List.getD_cons_succ, if_neg (by simp : ¬ false = true)]
      exact ih k (by simpa using Nat.lt_of_succ_lt_succ h)

theorem validateEntry_eq_none_iff (o : Obj) :
    validateEntry o = Option.none ↔ entryWellFormed o = true := by
  cases o with
  | null => simp [validateEntry, entryWellFormed, Obj.canConvertVec]
  | str s => simp [validateEntry, entryWellFormed, Obj.canConvertVec]
  | intVal n => simp [validateEntry, entryWellFormed, Obj.canConvertVec]
  | vec v =>
    simp only [validateEntry, entryWellFormed, Obj.canConvertVec, Obj.convertVec,
      Bool.not_eq_true, ite_eq_right_iff]
    split_ifs with h2 h3 <;> simp_all

theorem validateOptions_eq_none_iff (l : List Obj) :
    validateOptions l = Option.none ↔ ∀ o ∈ l, entryWellFormed o = true := by
  induction l with
  | nil => simp [validateOptions]
  | cons o rest ih =>
    cases h : validateEntry o with
    | none =>
      have hwf := (validateEntry_eq_none_iff o).mp h
      simp [validateOptions, h, ih, hwf]
    | some e =>
      have hwf : ¬ entryWellFormed o = true := fun hc => by
        rw [(validateEntry_eq_none_iff o).mpr hc] at h; exact Option.noConfusion h
      simp [validateOptions, h, hwf]

theorem pair_eta_flag (p : RadioButton × Obj) (b : Bool) (h : p.1.checked = b) :
    p = (⟨p.1.text, b⟩, p.2) := by
  obtain ⟨⟨t, c⟩, o⟩ := p
  cases h
  rfl

theorem list_ext_getD (l₁ l₂ : List (RadioButton × Obj)) (hlen : l₁.length = l₂.length)
    (h : ∀ j, j < l₁.length → l₁.getD j defaultPair = l₂.getD j defaultPair) :
    l₁ = l₂ := by
  apply List.ext_getElem hlen
  intro i h1 h2
  have := h i h1
  rwa [List.getD_eq_getElem _ _ h1, List.getD_eq_getElem _ _ h2] at this

theorem setFlagGo_length (l : List (RadioButton × Obj)) (j : Nat) (b : Bool) :
    (setFlagGo l j b).length = l.length := by
  induction l generalizing j with
  | nil => rfl
  | cons p rest ih =>
    cases j with
    | zero => rfl
    | succ k => simp [setFlagGo, ih k]

theorem setFlagGo_getD_self (l : List (RadioButton × Obj)) (j : Nat) (b : Bool)
    (h : j < l.length) :
    (setFlagGo l j b).getD j defaultPair
      = (⟨(l.getD j defaultPair).1.text, b⟩, (l.getD j defaultPair).2) := by
  induction l generalizing j with
  | nil => exact absurd h (by simp)
  | cons p rest ih =>
    cases j with
    | zero => simp [setFlagGo, List.getD_cons_zero]
    | succ k =>
      simp only [setFlagGo, List.getD_cons_succ]
      exact ih k (by simpa using Nat.lt_of_succ_lt_succ h)

theorem setFlagGo_getD_other (l : List (RadioButton × Obj)) (j j' : Nat) (b : Bool)
    (h : j' ≠ j) :
    (setFlagGo l j b).getD j' defaultPair = l.getD j' defaultPair := by
  induction l generalizing j j' with
  | nil => rfl
  | cons p rest ih =>
    cases j with
    | zero =>
      cases j' with
      | zero => exact absurd rfl h
      | succ k' => simp [setFlagGo, List.getD_cons_succ]
    | succ k =>
      cases j' with
      | zero => simp [setFlagGo, List.getD_cons_zero]
      | succ k' =>
        simp only [setFlagGo, List.getD_cons_succ]
        exact ih k k' (fun he => h (by rw [he]))

theorem uncheckAll_getD (l : List (RadioButton × Obj)) (j : Nat) :
    (uncheckAll l).getD j defaultPair
      = (⟨(l.getD j defaultPair).1.text, false⟩, (l.getD j defaultPair).2) := by
  induction l generalizing j with
  | nil => rfl
  | cons p rest ih =>
    cases j with
    | zero => simp [uncheckAll, List.getD_cons_zero]
    | succ k =>
      simp only [uncheckAll, List.getD_cons_succ]
      exact ih k

theorem uncheckAll_length (l : List (RadioButton × Obj)) :
    (uncheckAll l).length = l.length := by
  induction l with
  | nil => rfl
  | cons p rest ih => simp [uncheckAll, ih]

theorem checkOnlyGo_length (l : List (RadioButton × Obj)) (i : Nat) :
    (checkOnlyGo l i).length = l.length := by
  induction l generalizing i with
  | nil => rfl
  | cons p rest ih =>
    cases i with
    | zero => simp [checkOnlyGo, uncheckAll_length]
    | succ k => simp [checkOnlyGo, ih]

theorem checkOnlyGo_getD (l : List (RadioButton × Obj)) (i j : Nat) (h : j < l.length) :
    (checkOnlyGo l i).getD j defaultPair
      = (⟨(l.getD j defaultPair).1.text, decide (j = i)⟩, (l.getD j defaultPair).2) := by
  induction l generalizing i j with
  | nil => exact absurd h (by simp)
  | cons p rest ih =>
    cases i with
    | zero =>
      cases j with
      | zero => simp [checkOnlyGo, List.getD_cons_zero]
      | succ k =>
        simp only [checkOnlyGo, List.getD_cons_succ]
        rw [uncheckAll_getD]
        simp
    | succ ki =>
      cases j with
      | zero => simp [checkOnlyGo, List.getD_cons_zero]
      | succ k =>
        simp only [checkOnlyGo, List.getD_cons_succ]
        rw [ih ki k (by simpa using Nat.lt_of_succ_lt_succ h)]
        have hd : decide (k = ki) = decide (k + 1 = ki + 1) := by
          rw [decide_eq_decide]; omega
        rw [hd]

theorem anyChecked_eq_false (l : List (RadioButton × Obj))
    (h : ∀ j, j < l.length → (l.getD j defaultPair).1.checked = false) :
    anyChecked l = false := by
  induction l with
  | nil => rfl
  | cons p rest ih =>
    have h0 := h 0 (by simp)
    rw [List.getD_cons_zero] at h0
    simp only [anyChecked, h0, Bool.false_or]
    apply ih
    intro j hj
    have := h (j + 1) (by simpa using Nat.succ_lt_succ hj)
    rwa [List.getD_cons_succ] at this

theorem anyChecked_eq_true (l : List (RadioButton × Obj)) (j : Nat)
    (hj : j < l.length) (h : (l.getD j defaultPair).1.checked = true) :
    anyChecked l = true := by
  induction l generalizing j with
  | nil => exact absurd hj (by simp)
  | cons p rest ih =>
    cases j with
    | zero =>
      rw [List.getD_cons_zero] at h
      simp [anyChecked, h]
    | succ k =>
      rw [List.getD_cons_succ] at h
      simp [anyChecked, ih k (by simpa using Nat.lt_of_succ_lt_succ hj) h]

theorem anyCheckedExcept_eq_false (l : List (RadioButton × Obj)) (k : Nat)
    (h : ∀ j, j < l.length → j ≠ k → (l.getD j defaultPair).1.checked = false) :
    anyCheckedExcept l k = false := by
  induction l generalizing k with
  | nil => rfl
  | cons p rest ih =>
    cases k with
    | zero =>
      show anyChecked rest = false
      apply anyChecked_eq_false
      intro j hj
      have := h (j + 1) (by simpa using Nat.succ_lt_succ hj) (by simp)
      rwa [List.getD_cons_succ] at this
    | succ kk =>
      have h0 := h 0 (by simp) (by simp)
      rw [List.getD_cons_zero] at h0
      simp only [anyCheckedExcept, h0, Bool.false_or]
      apply ih
      intro j hj hne
      have := h (j + 1) (by simpa using Nat.succ_lt_succ hj) (fun he => hne (by omega))
      rwa [List.getD_cons_succ] at this

theorem anyCheckedExcept_eq_true (l : List (RadioButton × Obj)) (k c : Nat)
    (hc : c < l.length) (hck : c ≠ k)
    (h : (l.getD c defaultPair).1.checked = true) :
    anyCheckedExcept l k = true := by
  induction l generalizing k c with
  | nil => exact absurd hc (by simp)
  | cons p rest ih =>
    cases k with
    | zero =>
      cases c with
      | zero => exact absurd rfl hck
      | succ cc =>
        rw [List.getD_cons_succ] at h
        show anyChecked rest = true
        exact anyChecked_eq_true rest cc (by simpa using Nat.lt_of_succ_lt_succ hc) h
    | succ kk =>
      cases c with
      | zero =>
        rw [List.getD_cons_zero] at h
        simp [anyCheckedExcept, h]
      | succ cc =>
        rw [List.getD_cons_succ] at h
        simp only [anyCheckedExcept]
        rw [ih kk cc (by simpa using Nat.lt_of_succ_lt_succ hc) (fun he => hck (by omega)) h]
        simp

theorem uncheckFirstChecked_of_none (l : List (RadioButton × Obj))
    (h : ∀ j, j < l.length → (l.getD j defaultPair).1.checked = false) :
    uncheckFirstChecked l = l := by
  induction l with
  | nil => rfl
  | cons p rest ih =>
    have h0 := h 0 (by simp)
    rw [List.getD_cons_zero] at h0
    rw [uncheckFirstChecked, if_neg (by simp [h0])]
    rw [ih (fun j hj => by
      have := h (j + 1) (by simpa using Nat.succ_lt_succ hj)
      rwa [List.getD_cons_succ] at this)]

theorem uncheckFirstChecked_of_first (l : List (RadioButton × Obj)) (f : Nat)
    (hf : f < l.length) (hchk : (l.getD f defaultPair).1.checked = true)
    (hprev : ∀ j, j < f → (l.getD j defaultPair).1.checked = false) :
    uncheckFirstChecked l = setFlagGo l f false := by
  induction l generalizing f with
  | nil => exact absurd hf (by simp)
  | cons p rest ih =>
    cases f with
    | zero =>
      rw [List.getD_cons_zero] at hchk
      rw [uncheckFirstChecked, if_pos hchk]
      rfl
    | succ ff =>
      rw [List.getD_cons_succ] at hchk
      have h0 := hprev 0 (Nat.succ_pos ff)
      rw [List.getD_cons_zero] at h0
      rw [uncheckFirstChecked, if_neg (by simp [h0])]
      show p :: uncheckFirstChecked rest = p :: setFlagGo rest ff false
      congr 1
      exact ih ff (by simpa using Nat.lt_of_succ_lt_succ hf) hchk (fun j hj => by
        have := hprev (j + 1) (Nat.succ_lt_succ hj)
        rwa [List.getD_cons_succ] at this)

theorem uncheckFirstOther_of_none (l : List (RadioButton × Obj)) (k : Nat)
    (h : ∀ j, j < l.length → j ≠ k → (l.getD j defaultPair).1.checked = false) :
    uncheckFirstOther l k = l := by
  induction l generalizing k with
  | nil => rfl
  | cons p rest ih =>
    cases k with
    | zero =>
      show p :: uncheckFirstChecked rest = p :: rest
      congr 1
      apply uncheckFirstChecked_of_none
      intro j hj
      have := h (j + 1) (by simpa using Nat.succ_lt_succ hj) (by simp)
      rwa [List.getD_cons_succ] at this
    | succ kk =>
      have h0 := h 0 (by simp) (by simp)
      rw [List.getD_cons_zero] at h0
      rw [uncheckFirstOther, if_neg (by simp [h0])]
      show p :: uncheckFirstOther rest kk = p :: rest
      congr 1
      apply ih
      intro j hj hne
      have := h (j + 1) (by simpa using Nat.succ_lt_succ hj) (fun he => hne (by omega))
      rwa [List.getD_cons_succ] at this

theorem uncheckFirstOther_of_sole (l : List (RadioButton × Obj)) (k c : Nat)
    (hc : c < l.length) (hck : c ≠ k)
    (hchk : (l.getD c defaultPair).1.checked = true)
    (hothers : ∀ j, j < l.length → j ≠ k → j ≠ c →
      (l.getD j defaultPair).1.checked = false) :
    uncheckFirstOther l k = setFlagGo l c false := by
  induction l generalizing k c with
  | nil => exact absurd hc (by simp)
  | cons p rest ih =>
    cases k with
    | zero =>
      cases c with
      | zero => exact absurd rfl hck
      | succ cc =>
        rw [List.getD_cons_succ] at hchk
        show p :: uncheckFirstChecked rest = setFlagGo (p :: rest) (cc + 1) false
        rw [setFlagGo]
        congr 1
        apply uncheckFirstChecked_of_first rest cc (by simpa using Nat.lt_of_succ_lt_succ hc) hchk
        intro j hj
        have := hothers (j + 1) (by simp only [List.length_cons] at hc ⊢; omega) (by simp) (by omega)
        rwa [List.getD_cons_succ] at this
    | succ kk =>
      cases c with
      | zero =>
        rw [List.getD_cons_zero] at hchk
        rw [uncheckFirstOther, if_pos hchk]
        rfl
      | succ cc =>
        rw [List.getD_cons_succ] at hchk
        have h0 := hothers 0 (by simp) (by simp) (by simp)
        rw [List.getD_cons_zero] at h0
        rw [uncheckFirstOther, if_neg (by simp [h0])]
        show p :: uncheckFirstOther rest kk = setFlagGo (p :: rest) (cc + 1) false
        rw [setFlagGo]
        congr 1
        apply ih kk cc (by simpa using Nat.lt_of_succ_lt_succ hc) (fun he => hck (by omega)) hchk
        intro j hj h1 h2
        have := hothers (j + 1) (by simp only [List.length_cons]; omega)
          (fun he => h1 (by omega)) (fun he => h2 (by omega))
        rwa [List.getD_cons_succ] at this

theorem qtSetChecked_noop (l : List (RadioButton × Obj)) (j : Nat) (b : Bool)
    (h : (l.getD j defaultPair).1.checked = b) : qtSetChecked l j b = l := by
  unfold qtSetChecked
  by_cases hj : j < l.length
  · rw [if_pos hj, if_pos h]
  · rw [if_neg hj]

theorem qtSetChecked_check_none (l : List (RadioButton × Obj)) (k : Nat)
    (hk : k < l.length)
    (h : ∀ j, j < l.length → (l.getD j defaultPair).1.checked = false) :
    qtSetChecked l k true = checkOnlyGo l k := by
  unfold qtSetChecked
  rw [if_pos hk, if_neg (by rw [h k hk]; simp), if_pos rfl]
  rw [uncheckFirstOther_of_none (setFlagGo l k true) k (fun j hj hjk => by
    rw [setFlagGo_length] at hj
    rw [setFlagGo_getD_other l k j true hjk]
    exact h j hj)]
  apply list_ext_getD _ _ (by rw [setFlagGo_length, checkOnlyGo_length])
  intro j hj
  have hj' : j < l.length := by rwa [setFlagGo_length] at hj
  by_cases hjk : j = k
  · subst hjk
    rw [setFlagGo_getD_self l j true hj', checkOnlyGo_getD l j j hj']
    simp
  · rw [setFlagGo_getD_other l k j true hjk, checkOnlyGo_getD l k j hj']
    exact pair_eta_flag _ _ (by rw [h j hj']; simp [hjk])

theorem qtSetChecked_check_sole (l : List (RadioButton × Obj)) (k c : Nat)
    (hk : k < l.length) (hc : c < l.length) (hck : c ≠ k)
    (hchk : (l.getD c defaultPair).1.checked = true)
    (hothers : ∀ j, j < l.length → j ≠ c → (l.getD j defaultPair).1.checked = false) :
    qtSetChecked l k true = checkOnlyGo l k := by
  have hkflag : (l.getD k defaultPair).1.checked = false :=
    hothers k hk (fun he => hck he.symm)
  unfold qtSetChecked
  rw [if_pos hk, if_neg (by rw [hkflag]; simp), if_pos rfl]
  rw [uncheckFirstOther_of_sole (setFlagGo l k true) k c (by rwa [setFlagGo_length]) hck
      (by rw [setFlagGo_getD_other l k c true hck]; exact hchk)
      (fun j hj hjk hjc => by
        rw [setFlagGo_length] at hj
        rw [setFlagGo_getD_other l k j true hjk]
        exact hothers j hj hjc)]
  apply list_ext_getD _ _ (by rw [setFlagGo_length, setFlagGo_length, checkOnlyGo_length])
  intro j hj
  have hj' : j < l.length := by rwa [setFlagGo_length, setFlagGo_length] at hj
  rw [checkOnlyGo_getD l k j hj']
  by_cases hjc : j = c
  · subst hjc
    rw [setFlagGo_getD_self (setFlagGo l k true) j false (by rwa [setFlagGo_length])]
    rw [setFlagGo_getD_other l k j true hck]
    simp [show ¬ j = k from hck]
  · by_cases hjk : j = k
    · subst hjk
      rw [setFlagGo_getD_other (setFlagGo l j true) c j false (fun he => hjc he)]
      rw [setFlagGo_getD_self l j true hj']
      simp
    · rw [setFlagGo_getD_other (setFlagGo l k true) c j false hjc]
      rw [setFlagGo_getD_other l k j true hjk]
      exact pair_eta_flag _ _ (by rw [hothers j hj' hjc]; simp [hjk])

theorem qtSetChecked_uncheck_refused (l : List (RadioButton × Obj)) (k : Nat)
    (hk : k < l.length) (hlen2 : 2 ≤ l.length)
    (hchk : (l.getD k defaultPair).1.checked = true)
    (hothers : ∀ j, j < l.length → j ≠ k → (l.getD j defaultPair).1.checked = false) :
    qtSetChecked l k false = l := by
  unfold qtSetChecked
  rw [if_pos hk, if_neg (by rw [hchk]; simp), if_neg (by simp),
    if_neg (by omega : ¬ l.length = 1)]
  rw [anyCheckedExcept_eq_false l k hothers]
  simp

theorem inv_step (l₀ : List (RadioButton × Obj)) (v : Obj)
    (H0 : (∀ j, j < l₀.length → (l₀.getD j defaultPair).1.checked = false) ∨
      ∃ c, checkedExactlyAt l₀ c)
    (Hn : ∀ c, checkedExactlyAt l₀ c → (l₀.getD c defaultPair).2 ≠ v → 2 ≤ l₀.length)
    (k : Nat) (l : List (RadioButton × Obj)) (hk : k < l₀.length)
    (hinv : InvState l₀ v k l) :
    InvState l₀ v (k + 1) (qtSetChecked l k (Obj.equals ((l.getD k defaultPair).2) v)) := by
  rcases hinv with ⟨rfl, hnm⟩ | ⟨m, hmn, hmk, hmv, hrange, rfl⟩
  · by_cases hv : (l.getD k defaultPair).2 = v
    · have hb : Obj.equals ((l.getD k defaultPair).2) v = true := (Obj.equals_iff _ _).mpr hv
      rw [hb]
      rcases H0 with hnone | ⟨c, hc⟩
      · rw [qtSetChecked_check_none l k hk hnone]
        exact Or.inr ⟨k, hk, Nat.lt_succ_self k, hv, fun j _ h2 h3 => by omega, rfl⟩
      · by_cases hck : c = k
        · subst hck
          have hflag : (l.getD c defaultPair).1.checked = true := by
            simpa using hc.2 c hc.1
          rw [qtSetChecked_noop l c true hflag]
          refine Or.inr ⟨c, hc.1, Nat.lt_succ_self c, hv, fun j _ h2 h3 => by omega, ?_⟩
          apply list_ext_getD _ _ (by rw [checkOnlyGo_length])
          intro j hj
          rw [checkOnlyGo_getD l c j hj]
          exact pair_eta_flag _ _ (hc.2 j hj)
        · have hflagc : (l.getD c defaultPair).1.checked = true := by
            simpa using hc.2 c hc.1
          have hothers : ∀ j, j < l.length → j ≠ c →
              (l.getD j defaultPair).1.checked = false := by
            intro j hj hjc
            simpa [hjc] using hc.2 j hj
          rw [qtSetChecked_check_sole l k c hk hc.1 hck hflagc hothers]
          exact Or.inr ⟨k, hk, Nat.lt_succ_self k, hv, fun j _ h2 h3 => by omega, rfl⟩
    · have hb : Obj.equals ((l.getD k defaultPair).2) v = false := by
        rw [← Bool.not_eq_true, Obj.equals_iff]; exact hv
      rw [hb]
      have hext : ∀ j, j < l.length → j < k + 1 → (l.getD j defaultPair).2 ≠ v := by
        intro j hj hjk
        rcases (by omega : j < k ∨ j = k) with h | h
        · exact hnm j hj h
        · subst h; exact hv
      rcases H0 with hnone | ⟨c, hc⟩
      · rw [qtSetChecked_noop l k false (hnone k hk)]
        exact Or.inl ⟨rfl, hext⟩
      · by_cases hck : c = k
        · subst hck
          have hflag : (l.getD c defaultPair).1.checked = true := by
            simpa using hc.2 c hc.1
          have hothers : ∀ j, j < l.length → j ≠ c →
              (l.getD j defaultPair).1.checked = false := by
            intro j hj hjc
            simpa [hjc] using hc.2 j hj
          have hlen2 : 2 ≤ l.length := Hn c hc hv
          rw [qtSetChecked_uncheck_refused l c hc.1 hlen2 hflag hothers]
          exact Or.inl ⟨rfl, hext⟩
        · have hflagk : (l.getD k defaultPair).1.checked = false := by
            simpa [show ¬ k = c from fun he => hck he.symm] using hc.2 k hk
          rw [qtSetChecked_noop l k false hflagk]
          exact Or.inl ⟨rfl, hext⟩
  · have hlenEq : (checkOnlyGo l₀ m).length = l₀.length := checkOnlyGo_length l₀ m
    have hval : ((checkOnlyGo l₀ m).getD k defaultPair).2 = (l₀.getD k defaultPair).2 := by
      rw [checkOnlyGo_getD l₀ m k hk]
    have hflags : ∀ j, j < l₀.length →
        ((checkOnlyGo l₀ m).getD j defaultPair).1.checked = decide (j = m) := by
      intro j hj
      rw [checkOnlyGo_getD l₀ m j hj]
    by_cases hv : (l₀.getD k defaultPair).2 = v
    · have hb : Obj.equals (((checkOnlyGo l₀ m).getD k defaultPair).2) v = true := by
        rw [hval]; exact (Obj.equals_iff _ _).mpr hv
      rw [hb]
      rw [qtSetChecked_check_sole (checkOnlyGo l₀ m) k m (by rwa [hlenEq])
          (by rw [hlenEq]; omega) (by omega)
          (by rw [hflags m (by omega)]; simp)
          (fun j hj hjm => by
            rw [hlenEq] at hj
            rw [hflags j hj]
            simp [hjm])]
      have hco : checkOnlyGo (checkOnlyGo l₀ m) k = checkOnlyGo l₀ k := by
        apply list_ext_getD _ _ (by rw [checkOnlyGo_length, hlenEq, checkOnlyGo_length])
        intro j hj
        have hj' : j < l₀.length := by rwa [checkOnlyGo_length, hlenEq] at hj
        rw [checkOnlyGo_getD _ k j (by rwa [hlenEq]), checkOnlyGo_getD l₀ m j hj',
          checkOnlyGo_getD l₀ k j hj']
      rw [hco]
      exact Or.inr ⟨k, hk, Nat.lt_succ_self k, hv, fun j _ h2 h3 => by omega, rfl⟩
    · have hb : Obj.equals (((checkOnlyGo l₀ m).getD k defaultPair).2) v = false := by
        rw [hval, ← Bool.not_eq_true, Obj.equals_iff]; exact hv
      rw [hb]
      have hflagk : ((checkOnlyGo l₀ m).getD k defaultPair).1.checked = false := by
        rw [hflags k hk]
        simp [show ¬ k = m by omega]
      rw [qtSetChecked_noop _ k false hflagk]
      refine Or.inr ⟨m, hmn, by omega, hmv, ?_, rfl⟩
      intro j hj h2 h3
      rcases (by omega : j < k ∨ j = k) with h | h
      · exact hrange j hj h2 h
      · subst h; exact hv

theorem inv_steps (l₀ : List (RadioButton × Obj)) (v : Obj)
    (H0 : (∀ j, j < l₀.length → (l₀.getD j defaultPair).1.checked = false) ∨
      ∃ c, checkedExactlyAt l₀ c)
    (Hn : ∀ c, checkedExactlyAt l₀ c → (l₀.getD c defaultPair).2 ≠ v → 2 ≤ l₀.length) :
    ∀ fuel k l, k + fuel = l₀.length → InvState l₀ v k l →
      InvState l₀ v l₀.length (setValueQtSteps v fuel k l)
  | 0, k, l, hkf, hinv => by
      have hk : k = l₀.length := by omega
      exact hk ▸ hinv
  | Nat.succ fuel, k, l, hkf, hinv => by
      have hk : k < l₀.length := by omega
      show InvState l₀ v l₀.length (setValueQtSteps v fuel (k + 1)
        (qtSetChecked l k (Obj.equals ((l.getD k defaultPair).2) v)))
      exact inv_steps l₀ v H0 Hn fuel (k + 1) _ (by omega)
        (inv_step l₀ v H0 Hn k l hk hinv)

theorem setValueQt_eq_checkOnly (st : RadioGroup) (v : Obj) (m : Nat)
    (H0 : (∀ j, j < st.radioToOption.length →
        (st.radioToOption.getD j defaultPair).1.checked = false) ∨
      ∃ c, checkedExactlyAt st.radioToOption c)
    (hm : lastMatchAt st.radioToOption v m) :
    (st.setValueQt v).radioToOption = checkOnlyGo st.radioToOption m := by
  have Hn : ∀ c, checkedExactlyAt st.radioToOption c →
      (st.radioToOption.getD c defaultPair).2 ≠ v → 2 ≤ st.radioToOption.length := by
    intro c hc hcv
    have h1 := hc.1
    have h2 := hm.1
    have h3 : c ≠ m := fun he => hcv (he ▸ hm.2.1)
    omega
  have hfin := inv_steps st.radioToOption v H0 Hn st.radioToOption.length 0
    st.radioToOption (by omega) (Or.inl ⟨rfl, fun j _ h2 => by omega⟩)
  rcases hfin with ⟨heq, hnm⟩ | ⟨m', hm'n, _, hm'v, hrange', heq⟩
  · exact absurd hm.2.1 (hnm m hm.1 hm.1)
  · have hmm : m' = m := by
      by_contra hne
      rcases Nat.lt_or_ge m' m with h | h
      · exact hrange' m hm.1 h hm.1 hm.2.1
      · exact hm.2.2 m' hm'n (by omega) hm'v
    subst hmm
    exact heq

theorem setValueQt_eq_self_of_noMatch (st : RadioGroup) (v : Obj)
    (H0 : (∀ j, j < st.radioToOption.length →
        (st.radioToOption.getD j defaultPair).1.checked = false) ∨
      ∃ c, checkedExactlyAt st.radioToOption c ∧ 2 ≤ st.radioToOption.length)
    (hnm : ∀ j, j < st.radioToOption.length →
      (st.radioToOption.getD j defaultPair).2 ≠ v) :
    st.setValueQt v = st := by
  have H0' : (∀ j, j < st.radioToOption.length →
      (st.radioToOption.getD j defaultPair).1.checked = false) ∨
      ∃ c, checkedExactlyAt st.radioToOption c :=
    H0.imp id (fun ⟨c, hc, _⟩ => ⟨c, hc⟩)
  have Hn : ∀ c, checkedExactlyAt st.radioToOption c →
      (st.radioToOption.getD c defaultPair).2 ≠ v → 2 ≤ st.radioToOption.length := by
    intro c hc _
    rcases H0 with hnone | ⟨c', hc', hlen⟩
    · have h1 : (st.radioToOption.getD c defaultPair).1.checked = true := by
        simpa using hc.2 c hc.1
      have h2 := hnone c hc.1
      rw [h1] at h2
      exact absurd h2 (by simp)
    · exact hlen
  have hfin := inv_steps st.radioToOption v H0' Hn st.radioToOption.length 0
    st.radioToOption (by omega) (Or.inl ⟨rfl, fun j _ h2 => by omega⟩)
  rcases hfin with ⟨heq, _⟩ | ⟨m, hmn, _, hmv, _, _⟩
  · show RadioGroup.mk (setValueQtSteps v st.radioToOption.length 0 st.radioToOption) = st
    rw [heq]
  · exact absurd hmv (hnm m hmn)

theorem checkedExactlyAt_checkOnly (l : List (RadioButton × Obj)) (m : Nat)
    (hm : m < l.length) : checkedExactlyAt (checkOnlyGo l m) m := by
  refine ⟨by rw [checkOnlyGo_length]; exact hm, ?_⟩
  intro j hj
  rw [checkOnlyGo_length] at hj
  rw [checkOnlyGo_getD l m j hj]

theorem flagsFalse_of_memNone (l : List (RadioButton × Obj))
    (h : ∀ q ∈ l, q.1.checked = false) :
    ∀ j, j < l.length → (l.getD j defaultPair).1.checked = false := by
  intro j hj
  rw [List.getD_eq_getElem _ _ hj]
  exact h _ (List.getElem_mem hj)

/-- C1: setOptions raises a DataFormatException exactly when some entry of
the options list is malformed (not convertible to an ObjectVector, or not
of size 2, or with a label that is not convertible to a string); on a
list made only of well-formed [label, value] pairs it succeeds without
error. -/
theorem setOptions_error_iff (st : RadioGroup) (options : List Obj) :
    (st.setOptions options).2.isSome = true ↔
      ∃ o ∈ options, ¬ entryWellFormed o = true := by
  constructor
  · intro hsome
    by_contra hno
    push_neg at hno
    have hv : validateOptions options = Option.none :=
      (validateOptions_eq_none_iff options).mpr hno
    simp [RadioGroup.setOptions, hv] at hsome
  · rintro ⟨o, ho, hbad⟩
    cases h : validateOptions options with
    | some e => simp [RadioGroup.setOptions, h]
    | none =>
      exact absurd ((validateOptions_eq_none_iff options).mp h o ho) hbad

/-- C2: when setOptions throws the data-format error, the exception is
raised inside the validation loop before the queued replacement is
issued, so the widget state is exactly the prior one. -/
theorem setOptions_error_preserves_state (st : RadioGroup) (options : List Obj)
    (h : (st.setOptions options).2.isSome = true) :
    (st.setOptions options).1 = st := by
  cases hv : validateOptions options with
  | none => simp [RadioGroup.setOptions, hv] at h
  | some e => simp [RadioGroup.setOptions, hv]

/-- C2 witness: a concrete malformed call leaves a concrete state intact. -/
theorem setOptions_error_preserves_state_witness :
    ((RadioGroup.mk [(⟨"Opt0", true⟩, Obj.intVal 42)]).setOptions
        [Obj.intVal 7]).2.isSome = true ∧
    ((RadioGroup.mk [(⟨"Opt0", true⟩, Obj.intVal 42)]).setOptions
        [Obj.intVal 7]).1 = RadioGroup.mk [(⟨"Opt0", true⟩, Obj.intVal 42)] :=
  ⟨rfl, setOptions_error_preserves_state
    (RadioGroup.mk [(⟨"Opt0", true⟩, Obj.intVal 42)]) [Obj.intVal 7] rfl⟩

/-- C3: after a well-formed setOptions completes (the queued __setOptions
replacement followed by the re-application of the old value), value()
returns the previous value when it equals some new option value, and
otherwise no radio button is checked and value() returns the null
Object. -/
theorem setOptions_value_after (st : RadioGroup) (options : List Obj)
    (hwf : validateOptions options = Option.none) :
    ((st.value ∈ options.map optionValue) →
        (st.setOptions options).1.value = st.value) ∧
    ((st.value ∉ options.map optionValue) →
        (st.setOptions options).1.value = Obj.null ∧
        ∀ q ∈ (st.setOptions options).1.radioToOption, q.1.checked = false) := by
  have hfst : (st.setOptions options).1 = st.setOptionsSlot options := by
    simp [RadioGroup.setOptions, hwf]
  have hL : (options.map (fun o => ((⟨optionLabel o, false⟩ : RadioButton), optionValue o))).map
      (fun p => p.2) = options.map optionValue := by
    rw [List.map_map]; rfl
  have hval : (st.setOptionsSlot options).value
      = if st.value ∈ options.map optionValue then st.value else Obj.null := by
    show valueGo ((options.map (fun o => ((⟨optionLabel o, false⟩ : RadioButton), optionValue o))).map
        (fun p => ((⟨p.1.text, Obj.equals p.2 st.value⟩ : RadioButton), p.2))) = _
    rw [valueGo_setValueMap, hL]
  constructor
  · intro hmem
    rw [hfst, hval, if_pos hmem]
  · intro hnm
    refine ⟨by rw [hfst, hval, if_neg hnm], ?_⟩
    intro q hq
    rw [hfst] at hq
    have hq2 : q ∈ (options.map (fun o => ((⟨optionLabel o, false⟩ : RadioButton), optionValue o))).map
        (fun p => ((⟨p.1.text, Obj.equals p.2 st.value⟩ : RadioButton), p.2)) := hq
    exact checked_setValueMap _ st.value (by rw [hL]; exact hnm) q hq2

/-- C3 witness: a concrete replacement that keeps the selected value 42. -/
theorem setOptions_value_after_witness :
    validateOptions [Obj.vec [Obj.str "A", Obj.intVal 42]] = Option.none ∧
    (((RadioGroup.mk [(⟨"Opt0", true⟩, Obj.intVal 42)]).value ∈
        [Obj.vec [Obj.str "A", Obj.intVal 42]].map optionValue) →
      ((RadioGroup.mk [(⟨"Opt0", true⟩, Obj.intVal 42)]).setOptions
          [Obj.vec [Obj.str "A", Obj.intVal 42]]).1.value
        = (RadioGroup.mk [(⟨"Opt0", true⟩, Obj.intVal 42)]).value) ∧
    (((RadioGroup.mk [(⟨"Opt0", true⟩, Obj.intVal 42)]).value ∉
        [Obj.vec [Obj.str "A", Obj.intVal 42]].map optionValue) →
      ((RadioGroup.mk [(⟨"Opt0", true⟩, Obj.intVal 42)]).setOptions
          [Obj.vec [Obj.str "A", Obj.intVal 42]]).1.value = Obj.null ∧
      ∀ q ∈ ((RadioGroup.mk [(⟨"Opt0", true⟩, Obj.intVal 42)]).setOptions
          [Obj.vec [Obj.str "A", Obj.intVal 42]]).1.radioToOption,
        q.1.checked = false) :=
  ⟨rfl, setOptions_value_after (RadioGroup.mk [(⟨"Opt0", true⟩, Obj.intVal 42)])
    [Obj.vec [Obj.str "A", Obj.intVal 42]] rfl⟩

/-- C4: restoreState with an index at or past the number of options
returns without changing anything. -/
theorem restoreState_out_of_range (st : RadioGroup) (state : QVariant)
    (h : state.toUInt ≥ st.radioToOption.length) :
    st.restoreState state = st := by
  simp [RadioGroup.restoreState, h]

/-- C4 witness: restoring index 5 on a one-option widget is a no-op. -/
theorem restoreState_out_of_range_witness :
    (QVariant.intVal 5).toUInt ≥
        (RadioGroup.mk [(⟨"A", false⟩, Obj.intVal 1)]).radioToOption.length ∧
    (RadioGroup.mk [(⟨"A", false⟩, Obj.intVal 1)]).restoreState (QVariant.intVal 5)
      = RadioGroup.mk [(⟨"A", false⟩, Obj.intVal 1)] :=
  ⟨by decide, restoreState_out_of_range
    (RadioGroup.mk [(⟨"A", false⟩, Obj.intVal 1)]) (QVariant.intVal 5) (by decide)⟩

/-- C5: value() is the reverse lookup from checked state to option
value: the option value of the first checked button in list order, or
the null Object when no button is checked. -/
theorem value_is_reverse_lookup (st : RadioGroup) :
    st.value = match st.radioToOption.find? (fun p => p.1.checked) with
      | some p => p.2
      | Option.none => Obj.null :=
  valueGo_eq_find st.radioToOption

/-- C6: saveState returns the integer index of the first checked radio
button in list order, and the invalid QVariant when no button is
checked. -/
theorem saveState_first_checked_index (st : RadioGroup) :
    ((∀ q ∈ st.radioToOption, q.1.checked = false) →
        st.saveState = QVariant.invalid) ∧
    (∀ i, firstCheckedAt st.radioToOption i →
        st.saveState = QVariant.intVal i) := by
  constructor
  · intro h
    exact saveStateGo_of_noneChecked st.radioToOption 0 h
  · intro i h
    have := saveStateGo_of_firstChecked st.radioToOption i 0 h
    simpa [RadioGroup.saveState] using this

/-- C6 witness: index 1 is saved when the second button is the first
checked one, and a fully unchecked widget saves the invalid variant. -/
theorem saveState_first_checked_index_witness :
    firstCheckedAt [((⟨"A", false⟩ : RadioButton), Obj.intVal 1),
        (⟨"B", true⟩, Obj.intVal 2)] 1 ∧
    (RadioGroup.mk [(⟨"A", false⟩, Obj.intVal 1),
        (⟨"B", true⟩, Obj.intVal 2)]).saveState = QVariant.intVal 1 :=
  ⟨by decide, (saveState_first_checked_index (RadioGroup.mk
      [(⟨"A", false⟩, Obj.intVal 1), (⟨"B", true⟩, Obj.intVal 2)])).2 1 (by decide)⟩

/-- C7 counterexample: with options [(A,1) checked at index 0, (B,1)],
the saved index is 0 but the restore runs __setValue(1) on the
auto-exclusive buttons, and checking button 1 steals the check from
button 0: the claimed "same button checked" is false at this input. -/
theorem saveState_restoreState_not_same_button :
    firstCheckedAt [((⟨"A", true⟩ : RadioButton), Obj.intVal 1),
        (⟨"B", false⟩, Obj.intVal 1)] 0 ∧
    (RadioGroup.mk [(⟨"A", true⟩, Obj.intVal 1),
        (⟨"B", false⟩, Obj.intVal 1)]).radioToOption.length ≤ 2 ^ 32 ∧
    (((RadioGroup.mk [(⟨"A", true⟩, Obj.intVal 1), (⟨"B", false⟩, Obj.intVal 1)]).restoreState
        (RadioGroup.mk [(⟨"A", true⟩, Obj.intVal 1),
          (⟨"B", false⟩, Obj.intVal 1)]).saveState).radioToOption.getD 0
        defaultPair).1.checked = false := by
  decide

/-- C7 (amended): from a state with exactly the button at index i
checked, restoreState of saveState re-applies the value at index i, so
afterwards exactly the last button whose option value equals that value
is checked and value() is unchanged; when no later option repeats the
value at i — in particular for pairwise distinct option values — that
button is the original button i. -/
theorem saveState_restoreState_round_trip_qt (st : RadioGroup) (i m : Nat)
    (hlen : st.radioToOption.length ≤ 2 ^ 32)
    (hsole : checkedExactlyAt st.radioToOption i)
    (hm : lastMatchAt st.radioToOption ((st.radioToOption.getD i defaultPair).2) m) :
    checkedExactlyAt (st.restoreState st.saveState).radioToOption m ∧
    (st.restoreState st.saveState).value = st.value ∧
    ((∀ j, j < st.radioToOption.length → i < j →
        (st.radioToOption.getD j defaultPair).2 ≠ (st.radioToOption.getD i defaultPair).2) →
      m = i) := by
  have hlt : i < st.radioToOption.length := hsole.1
  have hfc : firstCheckedAt st.radioToOption i := by
    refine ⟨hsole.1, by simpa using hsole.2 i hsole.1, ?_⟩
    intro j hj
    have := hsole.2 j (by omega)
    simpa [show ¬ j = i by omega] using this
  have hsave : st.saveState = QVariant.intVal i := by
    have := saveStateGo_of_firstChecked st.radioToOption i 0 hfc
    simpa [RadioGroup.saveState] using this
  have h32n : (2 : ℕ) ^ 32 = 4294967296 := by norm_num
  have hi : i < 4294967296 := h32n ▸ lt_of_lt_of_le hlt hlen
  have htoU : st.saveState.toUInt = i := by
    rw [hsave]
    show (((i : Nat) : Int) % (2 ^ 32)).toNat = i
    have h32 : ((2 : Int) ^ 32) = 4294967296 := by norm_num
    rw [h32]
    omega
  have hrestore : st.restoreState st.saveState
      = st.setValueQt (st.radioToOption.getD i defaultPair).2 := by
    simp only [RadioGroup.restoreState, htoU]
    rw [if_neg (by omega : ¬ i ≥ st.radioToOption.length)]
  have heq := setValueQt_eq_checkOnly st ((st.radioToOption.getD i defaultPair).2) m
    (Or.inr ⟨i, hsole⟩) hm
  refine ⟨?_, ?_, ?_⟩
  · rw [hrestore, heq]
    exact checkedExactlyAt_checkOnly _ _ hm.1
  · rw [hrestore]
    show valueGo (st.setValueQt ((st.radioToOption.getD i defaultPair).2)).radioToOption
      = st.value
    rw [heq, valueGo_checkOnly _ _ hm.1, hm.2.1]
    exact (valueGo_of_firstChecked st.radioToOption i hfc).symm
  · intro hnodup
    by_contra hne
    rcases Nat.lt_or_ge m i with h | h
    · exact hm.2.2 i hsole.1 h rfl
    · exact hnodup m hm.1 (by omega) hm.2.1

/-- C7 witness: the round trip at a concrete two-option widget with
distinct values and the second button checked. -/
theorem saveState_restoreState_round_trip_qt_witness :
    (RadioGroup.mk [(⟨"A", false⟩, Obj.intVal 1),
        (⟨"B", true⟩, Obj.intVal 2)]).radioToOption.length ≤ 2 ^ 32 ∧
    checkedExactlyAt [((⟨"A", false⟩ : RadioButton), Obj.intVal 1),
        (⟨"B", true⟩, Obj.intVal 2)] 1 ∧
    lastMatchAt [((⟨"A", false⟩ : RadioButton), Obj.intVal 1),
        (⟨"B", true⟩, Obj.intVal 2)]
      (((RadioGroup.mk [(⟨"A", false⟩, Obj.intVal 1),
          (⟨"B", true⟩, Obj.intVal 2)]).radioToOption.getD 1 defaultPair).2) 1 ∧
    (checkedExactlyAt ((RadioGroup.mk [(⟨"A", false⟩, Obj.intVal 1),
          (⟨"B", true⟩, Obj.intVal 2)]).restoreState
        (RadioGroup.mk [(⟨"A", false⟩, Obj.intVal 1),
          (⟨"B", true⟩, Obj.intVal 2)]).saveState).radioToOption 1 ∧
      ((RadioGroup.mk [(⟨"A", false⟩, Obj.intVal 1),
          (⟨"B", true⟩, Obj.intVal 2)]).restoreState
        (RadioGroup.mk [(⟨"A", false⟩, Obj.intVal 1),
          (⟨"B", true⟩, Obj.intVal 2)]).saveState).value
        = (RadioGroup.mk [(⟨"A", false⟩, Obj.intVal 1),
            (⟨"B", true⟩, Obj.intVal 2)]).value ∧
      ((∀ j, j < (RadioGroup.mk [(⟨"A", false⟩, Obj.intVal 1),
            (⟨"B", true⟩, Obj.intVal 2)]).radioToOption.length → 1 < j →
          ((RadioGroup.mk [(⟨"A", false⟩, Obj.intVal 1),
            (⟨"B", true⟩, Obj.intVal 2)]).radioToOption.getD j defaultPair).2
            ≠ ((RadioGroup.mk [(⟨"A", false⟩, Obj.intVal 1),
              (⟨"B", true⟩, Obj.intVal 2)]).radioToOption.getD 1 defaultPair).2) →
        1 = 1)) :=
  ⟨by decide, by decide, by decide,
    saveState_restoreState_round_trip_qt
      (RadioGroup.mk [(⟨"A", false⟩, Obj.intVal 1), (⟨"B", true⟩, Obj.intVal 2)]) 1 1
      (by decide) (by decide) (by decide)⟩

/-- C8: a user selection of radio button i delivers toggled(false) for
the previously checked button and toggled(true) for button i, and emits
exactly one valueChanged signal, carrying the option value of button i;
handleRadioChanged emits nothing for toggled == false and emits
valueChanged with the current value() for toggled == true. -/
theorem userSelect_emits_once (st : RadioGroup) (i : Nat)
    (h : i < st.radioToOption.length) :
    (st.userSelect i).2 = [("valueChanged", (st.radioToOption.getD i defaultPair).2)] ∧
    st.handleRadioChanged false = [] ∧
    st.handleRadioChanged true = [("valueChanged", st.value)] := by
  refine ⟨?_, rfl, rfl⟩
  have hv := valueGo_checkOnly st.radioToOption i h
  simp [RadioGroup.userSelect, RadioGroup.handleRadioChanged, RadioGroup.value, hv]

/-- C8 witness: clicking the first of two buttons emits one valueChanged
with payload 1. -/
theorem userSelect_emits_once_witness :
    0 < (RadioGroup.mk [(⟨"A", false⟩, Obj.intVal 1),
        (⟨"B", true⟩, Obj.intVal 2)]).radioToOption.length ∧
    ((RadioGroup.mk [(⟨"A", false⟩, Obj.intVal 1),
        (⟨"B", true⟩, Obj.intVal 2)]).userSelect 0).2
      = [("valueChanged", ((RadioGroup.mk [(⟨"A", false⟩, Obj.intVal 1),
          (⟨"B", true⟩, Obj.intVal 2)]).radioToOption.getD 0 defaultPair).2)] ∧
    (RadioGroup.mk [(⟨"A", false⟩, Obj.intVal 1),
        (⟨"B", true⟩, Obj.intVal 2)]).handleRadioChanged false = [] ∧
    (RadioGroup.mk [(⟨"A", false⟩, Obj.intVal 1),
        (⟨"B", true⟩, Obj.intVal 2)]).handleRadioChanged true
      = [("valueChanged", (RadioGroup.mk [(⟨"A", false⟩, Obj.intVal 1),
          (⟨"B", true⟩, Obj.intVal 2)]).value)] :=
  ⟨by decide, userSelect_emits_once
    (RadioGroup.mk [(⟨"A", false⟩, Obj.intVal 1), (⟨"B", true⟩, Obj.intVal 2)]) 0
    (by decide)⟩

/-- C9 counterexample: __setValue(5) on [(A,1) checked, (B,2)] leaves
button 0 checked — Qt refuses to uncheck the sole checked button of the
auto-exclusive pair — so "checked iff the option value equals v" is
false at this input (the button is checked but 1 does not equal 5). -/
theorem setValue_not_checked_iff :
    ¬ ((((RadioGroup.mk [(⟨"A", true⟩, Obj.intVal 1),
        (⟨"B", false⟩, Obj.intVal 2)]).setValueQt
        (Obj.intVal 5)).radioToOption.getD 0 defaultPair).1.checked = true ↔
      ((RadioGroup.mk [(⟨"A", true⟩, Obj.intVal 1),
        (⟨"B", false⟩, Obj.intVal 2)]).radioToOption.getD 0 defaultPair).2
        = Obj.intVal 5) := by
  decide

/-- C9 (amended): __setValue(v) on auto-exclusive buttons, from a state
with at most one checked button: when some option value equals v,
exactly the last such button ends checked (not every one) and value()
afterwards returns v; when no option value equals v and the group has
at least two buttons, the state is unchanged — an unmatched v does not
produce the none-selected state. -/
theorem setValueQt_spec (st : RadioGroup) (v : Obj)
    (hexcl : (∀ q ∈ st.radioToOption, q.1.checked = false) ∨
      ∃ c, checkedExactlyAt st.radioToOption c) :
    (∀ m, lastMatchAt st.radioToOption v m →
        checkedExactlyAt (st.setValueQt v).radioToOption m ∧
        (st.setValueQt v).value = v) ∧
    ((v ∉ st.radioToOption.map (fun p => p.2)) → 2 ≤ st.radioToOption.length →
        st.setValueQt v = st) := by
  have H0 : (∀ j, j < st.radioToOption.length →
      (st.radioToOption.getD j defaultPair).1.checked = false) ∨
      ∃ c, checkedExactlyAt st.radioToOption c :=
    hexcl.imp (flagsFalse_of_memNone st.radioToOption) id
  constructor
  · intro m hm
    have heq := setValueQt_eq_checkOnly st v m H0 hm
    refine ⟨?_, ?_⟩
    · rw [heq]
      exact checkedExactlyAt_checkOnly _ _ hm.1
    · show valueGo (st.setValueQt v).radioToOption = v
      rw [heq, valueGo_checkOnly _ _ hm.1, hm.2.1]
  · intro hv hlen
    apply setValueQt_eq_self_of_noMatch st v
    · exact hexcl.imp (flagsFalse_of_memNone st.radioToOption)
        (fun hc => ⟨hc.choose, hc.choose_spec, hlen⟩)
    · intro j hj hje
      exact hv (hje ▸ getD_snd_mem_map st.radioToOption j hj)

/-- C9 witness: with options valued 1 and 2 and nothing checked,
__setValue(2) ends with exactly the second button checked and value()
equal to 2. -/
theorem setValueQt_spec_witness :
    ((∀ q ∈ [((⟨"A", false⟩ : RadioButton), Obj.intVal 1),
        (⟨"B", false⟩, Obj.intVal 2)], q.1.checked = false) ∨
      ∃ c, checkedExactlyAt [((⟨"A", false⟩ : RadioButton), Obj.intVal 1),
        (⟨"B", false⟩, Obj.intVal 2)] c) ∧
    lastMatchAt [((⟨"A", false⟩ : RadioButton), Obj.intVal 1),
        (⟨"B", false⟩, Obj.intVal 2)] (Obj.intVal 2) 1 ∧
    (checkedExactlyAt ((RadioGroup.mk [(⟨"A", false⟩, Obj.intVal 1),
        (⟨"B", false⟩, Obj.intVal 2)]).setValueQt (Obj.intVal 2)).radioToOption 1 ∧
      ((RadioGroup.mk [(⟨"A", false⟩, Obj.intVal 1),
        (⟨"B", false⟩, Obj.intVal 2)]).setValueQt (Obj.intVal 2)).value
        = Obj.intVal 2) :=
  ⟨Or.inl (by decide), by decide,
    (setValueQt_spec
      (RadioGroup.mk [(⟨"A", false⟩, Obj.intVal 1), (⟨"B", false⟩, Obj.intVal 2)])
      (Obj.intVal 2) (Or.inl (by decide))).1 1 (by decide)⟩

/-- C10 counterexample: with options [(A,1),(B,1)] and nothing checked,
restoring the invalid saved state runs __setValue(1), and on the
auto-exclusive buttons the check ends on button 1 (the last value
match), not on button 0 as the claim states. -/
theorem none_selected_round_trip_not_button_zero :
    (∀ q ∈ [((⟨"A", false⟩ : RadioButton), Obj.intVal 1),
        (⟨"B", false⟩, Obj.intVal 1)], q.1.checked = false) ∧
    ([((⟨"A", false⟩ : RadioButton), Obj.intVal 1), (⟨"B", false⟩, Obj.intVal 1)] :
        List (RadioButton × Obj)) ≠ [] ∧
    (((RadioGroup.mk [(⟨"A", false⟩, Obj.intVal 1),
        (⟨"B", false⟩, Obj.intVal 1)]).restoreState
        (RadioGroup.mk [(⟨"A", false⟩, Obj.intVal 1),
          (⟨"B", false⟩, Obj.intVal 1)]).saveState).radioToOption.getD 0
        defaultPair).1.checked = false := by
  decide

/-- C10 (amended): restoreState on the invalid QVariant that saveState
produces for a none-selected widget converts it to index 0 and
re-applies option 0's value, so on a non-empty option list exactly the
last button whose value equals option 0's value ends checked — button 0
itself when no later option repeats that value — and value() returns
option 0's value: the none-selected state does not survive the round
trip. -/
theorem none_selected_round_trip_qt (st : RadioGroup) (m : Nat)
    (hnone : ∀ q ∈ st.radioToOption, q.1.checked = false)
    (hne : st.radioToOption ≠ [])
    (hm : lastMatchAt st.radioToOption ((st.radioToOption.getD 0 defaultPair).2) m) :
    st.saveState = QVariant.invalid ∧
    checkedExactlyAt (st.restoreState st.saveState).radioToOption m ∧
    (st.restoreState st.saveState).value = (st.radioToOption.getD 0 defaultPair).2 ∧
    ((∀ j, j < st.radioToOption.length → 0 < j →
        (st.radioToOption.getD j defaultPair).2 ≠ (st.radioToOption.getD 0 defaultPair).2) →
      m = 0) := by
  have hsave : st.saveState = QVariant.invalid :=
    saveStateGo_of_noneChecked st.radioToOption 0 hnone
  have hpos : 0 < st.radioToOption.length := List.length_pos.mpr hne
  have hrestore : st.restoreState st.saveState
      = st.setValueQt (st.radioToOption.getD 0 defaultPair).2 := by
    rw [hsave]
    simp only [RadioGroup.restoreState, QVariant.toUInt]
    rw [if_neg (by omega : ¬ 0 ≥ st.radioToOption.length)]
  have heq := setValueQt_eq_checkOnly st ((st.radioToOption.getD 0 defaultPair).2) m
    (Or.inl (flagsFalse_of_memNone st.radioToOption hnone)) hm
  refine ⟨hsave, ?_, ?_, ?_⟩
  · rw [hrestore, heq]
    exact checkedExactlyAt_checkOnly _ _ hm.1
  · rw [hrestore]
    show valueGo (st.setValueQt ((st.radioToOption.getD 0 defaultPair).2)).radioToOption
      = (st.radioToOption.getD 0 defaultPair).2
    rw [heq, valueGo_checkOnly _ _ hm.1, hm.2.1]
  · intro hnodup
    by_contra hne0
    exact hnodup m hm.1 (by omega) hm.2.1

/-- C10 witness: a one-option widget with nothing checked saves the
invalid variant; after restore exactly button 0 is checked and value()
is option 0's value. -/
theorem none_selected_round_trip_qt_witness :
    (∀ q ∈ (RadioGroup.mk [(⟨"A", false⟩, Obj.intVal 1)]).radioToOption,
        q.1.checked = false) ∧
    (RadioGroup.mk [(⟨"A", false⟩, Obj.intVal 1)]).radioToOption ≠ [] ∧
    lastMatchAt [((⟨"A", false⟩ : RadioButton), Obj.intVal 1)]
      (((RadioGroup.mk [(⟨"A", false⟩, Obj.intVal 1)]).radioToOption.getD 0
        defaultPair).2) 0 ∧
    ((RadioGroup.mk [(⟨"A", false⟩, Obj.intVal 1)]).saveState = QVariant.invalid ∧
      checkedExactlyAt ((RadioGroup.mk [(⟨"A", false⟩, Obj.intVal 1)]).restoreState
        (RadioGroup.mk [(⟨"A", false⟩, Obj.intVal 1)]).saveState).radioToOption 0 ∧
      ((RadioGroup.mk [(⟨"A", false⟩, Obj.intVal 1)]).restoreState
        (RadioGroup.mk [(⟨"A", false⟩, Obj.intVal 1)]).saveState).value
        = ((RadioGroup.mk [(⟨"A", false⟩, Obj.intVal 1)]).radioToOption.getD 0
          defaultPair).2 ∧
      ((∀ j, j < (RadioGroup.mk [(⟨"A", false⟩, Obj.intVal 1)]).radioToOption.length →
          0 < j →
          ((RadioGroup.mk [(⟨"A", false⟩, Obj.intVal 1)]).radioToOption.getD j
            defaultPair).2
            ≠ ((RadioGroup.mk [(⟨"A", false⟩, Obj.intVal 1)]).radioToOption.getD 0
              defaultPair).2) →
        0 = 0)) :=
  ⟨by decide, by decide, by decide,
    none_selected_round_trip_qt (RadioGroup.mk [(⟨"A", false⟩, Obj.intVal 1)]) 0
      (by decide) (by decide) (by decide)⟩

end RadioGroupModel
